import Mathlib

/-!
Verification of the face-identification core of the HackMIT repository
(mcp-server).  The embedding follows the source:

* `src/mcp-server/database-schema.sql` — the `faces` table and its
  `unique_name_per_user UNIQUE (name, user_id)` constraint;
* `src/mcp-server/supabase-functions.sql` — the `match_faces` SQL function
  (filter by `1 - (face_embedding <=> query_embedding) > match_threshold`,
  order by distance ascending, `LIMIT match_count`);
* `src/unnamed/part_007` (`python-face-recognition.ts`, first variant) —
  `PythonFaceRecognitionService`: `identifyFace`, `addFace`,
  `recognizeFace`, `getRandomColor`.

External collaborators are parameters of the embedding:

* the pgvector cosine-distance operator `<=>` is provided by the Postgres
  `vector` extension, not by this repository, so it is a parameter
  `dist : List ℚ → List ℚ → ℚ` (the SQL computes similarity as `1 - dist`);
* face detection happens in the external Python service
  (`detectFaces` performs an HTTP call and returns `[]` on every failure),
  so it is a parameter `detect : String → List FaceDetection`;
* `Math.random()` inside `getRandomColor` is a parameter `k : Nat`
  standing for the drawn index.

Store errors (Supabase returning an `error` field or throwing) are modelled
by the `available` flag of `Store`: when it is `false` every database call
takes its error branch exactly as the TypeScript code does (log and return
`null`).
-/

namespace HackMIT

/-- The fixed palette of `getRandomColor` (part_007, lines 333-349). -/
def hexColors : List String :=
  ["#FF6B6B", "#4ECDC4", "#45B7D1", "#96CEB4", "#FFEAA7", "#DDA0DD",
   "#FFB6C1", "#98D8C8", "#F7DC6F", "#BB8FCE", "#85C1E9", "#F8C471"]

/-- `getRandomColor` returns `hexColors[Math.floor(Math.random() * hexColors.length)]`;
the random draw is modelled by the index `k` reduced modulo the palette size
(so every possible draw is covered and the fallback branch is unreachable). -/
def getRandomColor (k : Nat) : String :=
  match hexColors.get? (k % hexColors.length) with
  | some c => c
  | none => "#FF6B6B"

/-- A row of the `faces` table (database-schema.sql) / the `FaceRecord`
interface of supabase.ts.  `id` is an opaque identifier (uuid in the schema,
a natural number here), `user_id` is nullable. -/
structure FaceRecord where
  id : Nat
  name : String
  relationship : String
  color : String
  face_embedding : List ℚ
  user_id : Option Nat := none
deriving DecidableEq

/-- One detected face as returned by `detectFaces` (the `FaceDetection`
interface of part_007). -/
structure FaceDetection where
  name : String
  relationship : String
  color : String
  embedding : List ℚ
  confidence : ℚ
deriving DecidableEq

/-- The `FaceRecognitionResult` interface of part_007. -/
structure FaceRecognitionResult where
  success : Bool
  person : Option String := none
  relationship : Option String := none
  confidence : Option ℚ := none
  color : Option String := none
  message : String
  error : Option String := none
deriving DecidableEq

/-- The `faces` datastore: its rows, the next fresh id, and whether the
database is reachable (`available = false` makes every call take the
TypeScript error branch). -/
structure Store where
  records : List FaceRecord
  nextId : Nat
  available : Bool
deriving DecidableEq

/-- JavaScript `String.prototype.trim`: drop leading and trailing whitespace.
Implemented over the character list so that it evaluates by kernel reduction
(the built-in `String.trim` rests on `Substring` primitives that do not). -/
def jsTrim (s : String) : String :=
  String.mk (((s.data.dropWhile Char.isWhitespace).reverse.dropWhile
    Char.isWhitespace).reverse)

/-- Insertion step of the sort used to model the SQL `ORDER BY`. -/
def insertLE {α : Type} (le : α → α → Bool) (x : α) : List α → List α
  | [] => [x]
  | y :: ys => if le x y then x :: y :: ys else y :: insertLE le x ys

/-- Insertion sort by a boolean `le`, modelling the SQL `ORDER BY`. -/
def sortLE {α : Type} (le : α → α → Bool) : List α → List α
  | [] => []
  | x :: xs => insertLE le x (sortLE le xs)

/-- The `match_faces` SQL function (supabase-functions.sql, lines 5-34):
keep the rows whose cosine similarity `1 - (face_embedding <=> query)` is
STRICTLY greater than `match_threshold`, order by distance ascending and
return at most `match_count` rows.  (The SQL row also carries the
`similarity` column; the TypeScript caller only reads the record fields,
which is what we return.) -/
def matchFaces (dist : List ℚ → List ℚ → ℚ) (records : List FaceRecord)
    (query_embedding : List ℚ) (match_threshold : ℚ) (match_count : Nat) :
    List FaceRecord :=
  (sortLE
      (fun a b =>
        decide (dist a.face_embedding query_embedding ≤ dist b.face_embedding query_embedding))
      (records.filter
        (fun r => decide (1 - dist r.face_embedding query_embedding > match_threshold)))).take
    match_count

/-- `identifyFace` (part_007, lines 152-175): call the `match_faces` RPC with
threshold `0.7` and count `1`; on a database error log and return `null`;
return the first row if any, else `null`. -/
def identifyFace (dist : List ℚ → List ℚ → ℚ) (store : Store)
    (embedding : List ℚ) : Option FaceRecord :=
  if store.available then
    match matchFaces dist store.records embedding (7/10) 1 with
    | [] => none
    | r :: _ => some r
  else none

/-- The `FaceInsert` interface of supabase.ts. -/
structure FaceInsert where
  name : String
  relationship : String
  color : Option String := none
  face_embedding : Option (List ℚ) := none
  user_id : Option Nat := none

/-- JavaScript truthiness of the optional `personName` / `personRelationship`
strings: `undefined` and the empty string are falsy. -/
def truthy : Option String → Bool
  | none => false
  | some s => !decide (s = "")

/-- Extraction of an optional string (the string value when present, the
empty string otherwise); `recognizeFace` only extracts values that its
truthiness guard has already established to be present and non-empty. -/
def orElseEmpty : Option String → String
  | none => ""
  | some s => s

/-- The schema default for the `color` column (`DEFAULT` blue). -/
def colorOrDefault : Option String → String
  | none => "blue"
  | some c => c

/-- The `unique_name_per_user UNIQUE (name, user_id)` constraint of
database-schema.sql.  Postgres unique constraints treat NULLs as distinct,
so a conflict needs equal names and equal non-null `user_id`s. -/
def uniqueNamePerUserViolation (records : List FaceRecord) (n : String)
    (uid : Option Nat) : Bool :=
  records.any (fun r =>
    decide (r.name = n) &&
      match uid, r.user_id with
      | some a, some b => decide (a = b)
      | _, _ => false)

/-- `addFace` (part_007, lines 177-195): insert the row; on a database error
(unreachable store or constraint violation) log and return `null`, otherwise
return the inserted row.  The schema defaults `color` to "blue" when not
supplied and `face_embedding` may be null (the create path of
`recognizeFace` always supplies both, so the defaults below are only the
schema defaults). -/
def addFace (store : Store) (f : FaceInsert) : Option FaceRecord × Store :=
  if store.available then
    if uniqueNamePerUserViolation store.records f.name f.user_id then
      (none, store)
    else
      let newRec : FaceRecord :=
        { id := store.nextId, name := f.name, relationship := f.relationship,
          color := colorOrDefault f.color,
          face_embedding := f.face_embedding.getD [], user_id := f.user_id }
      (some newRec,
        { records := store.records ++ [newRec], nextId := store.nextId + 1,
          available := true })
  else (none, store)

/-- `recognizeFace` (part_007, lines 240-331, the three-argument variant used
by the MCP tool handler in part_006):

1. reject empty/whitespace-only `base64Image`
   (`!base64Image || base64Image.trim().length === 0` is equivalent to
   `base64Image.trim().length === 0` since the empty string trims to itself);
2. detect faces; if none, return the no-faces failure;
3. use the FIRST detected face only;
4. `identifyFace`; on a hit return the match result with the fixed
   confidence `0.8`;
5. otherwise, if both name and relationship are truthy, `addFace` with a
   random palette color and return the created record with confidence `1.0`;
6. otherwise (including a failed insert) return the unrecognized result
   carrying the per-face detector confidence. -/
def recognizeFace (dist : List ℚ → List ℚ → ℚ)
    (detect : String → List FaceDetection) (k : Nat) (store : Store)
    (base64Image : String)
    (personName personRelationship : Option String) :
    FaceRecognitionResult × Store :=
  if (jsTrim base64Image).length = 0 then
    ({ success := false, message := "No image data provided",
       error := some "Empty image data" }, store)
  else
    match detect base64Image with
    | [] =>
        ({ success := false, message := "No faces detected in the image",
           error := some "No faces found" }, store)
    | face :: _ =>
        match identifyFace dist store face.embedding with
        | some existingPerson =>
            ({ success := true, person := some existingPerson.name,
               relationship := some existingPerson.relationship,
               confidence := some (8/10), color := some existingPerson.color,
               message := "Found existing person: " ++ existingPerson.name ++
                 " (" ++ existingPerson.relationship ++ ")" }, store)
        | none =>
            if truthy personName && truthy personRelationship then
              match addFace store
                  { name := orElseEmpty personName,
                    relationship := orElseEmpty personRelationship,
                    color := some (getRandomColor k),
                    face_embedding := some face.embedding } with
              | (some newFace, store2) =>
                  ({ success := true, person := some newFace.name,
                     relationship := some newFace.relationship,
                     confidence := some 1, color := some newFace.color,
                     message := "Added new person: " ++ newFace.name ++
                       " (" ++ newFace.relationship ++ ")" }, store2)
              | (none, store2) =>
                  ({ success := false, person := some "Unknown",
                     relationship := some "Unknown",
                     confidence := some face.confidence,
                     message := "Face detected but not recognized. Provide name and relationship to add new person." },
                    store2)
            else
              ({ success := false, person := some "Unknown",
                 relationship := some "Unknown",
                 confidence := some face.confidence,
                 message := "Face detected but not recognized. Provide name and relationship to add new person." },
                store)

/-- The `/search-person` response shape documented in the agent integration
guide (part_008): the `recognizeFace` fields plus `is_new_person`. -/
structure SearchPersonResponse where
  success : Bool
  person : Option String := none
  relationship : Option String := none
  confidence : Option ℚ := none
  color : Option String := none
  is_new_person : Bool := false
  message : String
  error : Option String := none
deriving DecidableEq

/-- Modelled from the spec: the `is_new_person` field of the `/search-person`
response is produced by the Python face service (`face_service.py`), whose
source is not under src/; the integration guide (part_008) documents it as
"true if person was added to database, false if found existing".  The rest
of the behaviour follows `recognizeFace` from part_007. -/
def searchPerson (dist : List ℚ → List ℚ → ℚ)
    (detect : String → List FaceDetection) (k : Nat) (store : Store)
    (base64Image : String)
    (personName personRelationship : Option String) :
    SearchPersonResponse × Store :=
  let out := recognizeFace dist detect k store base64Image personName personRelationship
  ({ success := out.1.success, person := out.1.person,
     relationship := out.1.relationship, confidence := out.1.confidence,
     color := out.1.color,
     is_new_person := decide (store.records.length < out.2.records.length),
     message := out.1.message, error := out.1.error }, out.2)

/-! ## Concrete scenario data

Constant distance functions and small concrete stores, detectors and images
used to instantiate the theorems below on closed inputs. -/

/-- The constant cosine-distance function returning `x` for every pair. -/
def constDist (x : ℚ) : List ℚ → List ℚ → ℚ := fun _ _ => x

/-- A concrete stored identity. -/
def anaRecord : FaceRecord :=
  { id := 0, name := "Ana", relationship := "Daughter", color := "blue",
    face_embedding := [1], user_id := none }

/-- A reachable store holding the single record `anaRecord`. -/
def oneRecordStore : Store :=
  { records := [anaRecord], nextId := 1, available := true }

/-- An unreachable store holding the single record `anaRecord`. -/
def downStore : Store :=
  { records := [anaRecord], nextId := 1, available := false }

/-- A reachable empty store. -/
def emptyStore : Store := { records := [], nextId := 0, available := true }

/-- A concrete detected face. -/
def probeFace : FaceDetection :=
  { name := "", relationship := "", color := "", embedding := [1],
    confidence := 9/10 }

/-- A second concrete detected face with a different descriptor. -/
def probeFace2 : FaceDetection :=
  { name := "", relationship := "", color := "", embedding := [2],
    confidence := 9/10 }

/-- A detector that finds exactly `probeFace` in every image. -/
def detectOne : String → List FaceDetection := fun _ => [probeFace]

/-- A detector that finds exactly `probeFace2` in every image. -/
def detectTwo : String → List FaceDetection := fun _ => [probeFace2]

/-- A detector that finds `probeFace` followed by `probeFace2`. -/
def detectPair : String → List FaceDetection := fun _ => [probeFace, probeFace2]

/-- A detector that finds no faces. -/
def detectZero : String → List FaceDetection := fun _ => []

/-- A concrete non-blank base64 payload. -/
def img0 : String := "img"

/-- A whitespace-only payload. -/
def imgBlank : String := " "

/-! ## Helper lemmas about the sort and the matcher -/

theorem mem_insertLE {α : Type} (le : α → α → Bool) (x a : α) (l : List α) :
    a ∈ insertLE le x l ↔ a = x ∨ a ∈ l := by
  induction l with
  | nil => simp [insertLE]
  | cons y ys ih =>
      by_cases h : le x y
      · simp [insertLE, h]
      · simp [insertLE, h, ih]
        tauto

theorem mem_sortLE {α : Type} (le : α → α → Bool) (a : α) (l : List α) :
    a ∈ sortLE le l ↔ a ∈ l := by
  induction l with
  | nil => simp [sortLE]
  | cons y ys ih => simp [sortLE, mem_insertLE, ih]

theorem insertLE_head_of_le {α : Type} (le : α → α → Bool) (x : α) (s : List α)
    (h : ∀ y ∈ s, le x y = true) : (insertLE le x s).head? = some x := by
  cases s with
  | nil => rfl
  | cons y ys =>
      have hy : le x y = true := h y (List.mem_cons_self y ys)
      simp [insertLE, hy]

theorem sortLE_head_min {α : Type} (le : α → α → Bool) (f : α → ℚ)
    (hle : ∀ a b, le a b = decide (f a ≤ f b)) (l : List α) (x : α)
    (hx : x ∈ l) (hmin : ∀ y ∈ l, y ≠ x → f x < f y) :
    (sortLE le l).head? = some x := by
  induction l with
  | nil => cases hx
  | cons a t ih =>
      show (insertLE le a (sortLE le t)).head? = some x
      by_cases hax : a = x
      · subst hax
        apply insertLE_head_of_le
        intro y hy
        rw [mem_sortLE] at hy
        rw [hle]
        by_cases hyx : y = a
        · subst hyx; simp
        · exact decide_eq_true (le_of_lt (hmin y (List.mem_cons_of_mem a hy) hyx))
      · have hxt : x ∈ t := by
          cases hx with
          | head => exact absurd rfl hax
          | tail _ h => exact h
        have ih' := ih hxt (fun y hy hyx => hmin y (List.mem_cons_of_mem a hy) hyx)
        have hfa : f x < f a := hmin a (List.mem_cons_self a t) hax
        cases hs : sortLE le t with
        | nil => rw [hs] at ih'; cases ih'
        | cons z zs =>
            rw [hs] at ih'
            simp only [List.head?_cons, Option.some.injEq] at ih'
            subst ih'
            have hlt : le a z = false := by
              rw [hle]
              exact decide_eq_false (not_le.mpr hfa)
            simp [insertLE, hlt]

theorem matchFaces_nil (dist : List ℚ → List ℚ → ℚ) (records : List FaceRecord)
    (q : List ℚ) (t : ℚ) (c : Nat)
    (h : ∀ s ∈ records, ¬ (1 - dist s.face_embedding q > t)) :
    matchFaces dist records q t c = [] := by
  unfold matchFaces
  have hf : records.filter
      (fun r => decide (1 - dist r.face_embedding q > t)) = [] := by
    rw [List.filter_eq_nil_iff]
    intro a ha
    simpa using h a ha
  rw [hf]
  simp [sortLE]

theorem matchFaces_head (dist : List ℚ → List ℚ → ℚ) (records : List FaceRecord)
    (q : List ℚ) (t : ℚ) (r : FaceRecord)
    (hr : r ∈ records) (hsim : 1 - dist r.face_embedding q > t)
    (hmin : ∀ s ∈ records, s ≠ r →
      dist r.face_embedding q < dist s.face_embedding q) :
    matchFaces dist records q t 1 = [r] := by
  unfold matchFaces
  have hrf : r ∈ records.filter
      (fun s => decide (1 - dist s.face_embedding q > t)) :=
    List.mem_filter.mpr ⟨hr, by simpa using hsim⟩
  have hhead :=
    sortLE_head_min
      (fun a b =>
        decide (dist a.face_embedding q ≤ dist b.face_embedding q))
      (fun s => dist s.face_embedding q) (fun a b => rfl)
      (records.filter (fun s => decide (1 - dist s.face_embedding q > t))) r
      hrf (fun y hy hyx => hmin y (List.mem_of_mem_filter hy) hyx)
  cases hs : sortLE
      (fun a b =>
        decide (dist a.face_embedding q ≤ dist b.face_embedding q))
      (records.filter (fun s => decide (1 - dist s.face_embedding q > t))) with
  | nil => rw [hs] at hhead; cases hhead
  | cons z zs =>
      rw [hs] at hhead
      simp only [List.head?_cons, Option.some.injEq] at hhead
      subst hhead
      rfl

theorem identifyFace_some (dist : List ℚ → List ℚ → ℚ) (store : Store)
    (emb : List ℚ) (r : FaceRecord) (hav : store.available = true)
    (hr : r ∈ store.records) (hsim : 1 - dist r.face_embedding emb > 7/10)
    (hmin : ∀ s ∈ store.records, s ≠ r →
      dist r.face_embedding emb < dist s.face_embedding emb) :
    identifyFace dist store emb = some r := by
  unfold identifyFace
  rw [hav, matchFaces_head dist store.records emb (7/10) r hr hsim hmin]
  rfl

theorem identifyFace_none_below (dist : List ℚ → List ℚ → ℚ) (store : Store)
    (emb : List ℚ)
    (h : ∀ s ∈ store.records, ¬ (1 - dist s.face_embedding emb > 7/10)) :
    identifyFace dist store emb = none := by
  unfold identifyFace
  rw [matchFaces_nil dist store.records emb (7/10) 1 h]
  cases store.available <;> rfl

theorem identifyFace_none_down (dist : List ℚ → List ℚ → ℚ) (store : Store)
    (emb : List ℚ) (h : store.available = false) :
    identifyFace dist store emb = none := by
  unfold identifyFace
  rw [h]
  rfl

theorem uniqueViolation_user_none (records : List FaceRecord) (n : String) :
    uniqueNamePerUserViolation records n none = false := by
  induction records with
  | nil => rfl
  | cons r t ih =>
      unfold uniqueNamePerUserViolation at ih ⊢
      rw [List.any_cons, ih, Bool.or_false]
      cases r.user_id <;> simp

/-! ## Path lemmas for `recognizeFace` -/

theorem recognizeFace_match (dist : List ℚ → List ℚ → ℚ)
    (detect : String → List FaceDetection) (k : Nat) (store : Store)
    (img : String) (pn pr : Option String) (face : FaceDetection)
    (rest : List FaceDetection) (p : FaceRecord)
    (himg : (jsTrim img).length ≠ 0)
    (hdet : detect img = face :: rest)
    (hid : identifyFace dist store face.embedding = some p) :
    recognizeFace dist detect k store img pn pr =
      ({ success := true, person := some p.name,
         relationship := some p.relationship, confidence := some (8/10),
         color := some p.color,
         message := "Found existing person: " ++ p.name ++ " (" ++
           p.relationship ++ ")" }, store) := by
  unfold recognizeFace
  rw [if_neg himg, hdet]
  simp [hid]

theorem recognizeFace_unmatched (dist : List ℚ → List ℚ → ℚ)
    (detect : String → List FaceDetection) (k : Nat) (store : Store)
    (img : String) (pn pr : Option String) (face : FaceDetection)
    (rest : List FaceDetection)
    (himg : (jsTrim img).length ≠ 0)
    (hdet : detect img = face :: rest)
    (hid : identifyFace dist store face.embedding = none)
    (hnames : (truthy pn && truthy pr) = false) :
    recognizeFace dist detect k store img pn pr =
      ({ success := false, person := some "Unknown",
         relationship := some "Unknown", confidence := some face.confidence,
         message := "Face detected but not recognized. Provide name and relationship to add new person." },
        store) := by
  unfold recognizeFace
  rw [if_neg himg, hdet]
  simp [hid, hnames]

theorem recognizeFace_create (dist : List ℚ → List ℚ → ℚ)
    (detect : String → List FaceDetection) (k : Nat) (store : Store)
    (img : String) (face : FaceDetection) (rest : List FaceDetection)
    (n rel : String)
    (himg : (jsTrim img).length ≠ 0)
    (hdet : detect img = face :: rest)
    (hav : store.available = true)
    (hbelow : ∀ s ∈ store.records,
      ¬ (1 - dist s.face_embedding face.embedding > 7/10))
    (hn : n ≠ "") (hrel : rel ≠ "") :
    recognizeFace dist detect k store img (some n) (some rel) =
      ({ success := true, person := some n, relationship := some rel,
         confidence := some 1, color := some (getRandomColor k),
         message := "Added new person: " ++ n ++ " (" ++ rel ++ ")" },
       { records := store.records ++
           [{ id := store.nextId, name := n, relationship := rel,
              color := getRandomColor k, face_embedding := face.embedding,
              user_id := none }],
         nextId := store.nextId + 1, available := true }) := by
  unfold recognizeFace
  rw [if_neg himg, hdet]
  have hid := identifyFace_none_below dist store face.embedding hbelow
  have htr : (truthy (some n) && truthy (some rel)) = true := by
    simp [truthy, hn, hrel]
  simp only [hid, htr, if_true]
  unfold addFace
  simp [hav, uniqueViolation_user_none, orElseEmpty, colorOrDefault]

/-! ## Claims -/

/-- C3: for every input image in which zero faces are detected, resolve
returns a failure result with `success:false` and the message
"No faces detected in the image", rather than throwing or aborting (the
embedding is a total function, and this theorem gives the exact result). -/
theorem C3_no_faces (dist : List ℚ → List ℚ → ℚ)
    (detect : String → List FaceDetection) (k : Nat) (store : Store)
    (img : String) (pn pr : Option String)
    (himg : (jsTrim img).length ≠ 0) (hdet : detect img = []) :
    recognizeFace dist detect k store img pn pr =
      ({ success := false, message := "No faces detected in the image",
         error := some "No faces found" }, store) := by
  unfold recognizeFace
  rw [if_neg himg, hdet]

/-- C3 witness: a concrete run with a detector that finds no faces. -/
theorem C3_witness :
    recognizeFace (constDist 1) detectZero 0 oneRecordStore img0 none none =
      ({ success := false, message := "No faces detected in the image",
         error := some "No faces found" }, oneRecordStore) :=
  C3_no_faces (constDist 1) detectZero 0 oneRecordStore img0 none none
    (by decide) rfl

/-- C5: for a descriptor below threshold against every stored record, with no
candidate name/relationship supplied, resolve returns `success:false` with
`confidence` equal to the detection confidence reported by the detector for
the first face, and the store is left completely unchanged. -/
theorem C5_unmatched (dist : List ℚ → List ℚ → ℚ)
    (detect : String → List FaceDetection) (k : Nat) (store : Store)
    (img : String) (face : FaceDetection) (rest : List FaceDetection)
    (himg : (jsTrim img).length ≠ 0) (hdet : detect img = face :: rest)
    (hbelow : ∀ s ∈ store.records,
      ¬ (1 - dist s.face_embedding face.embedding > 7/10)) :
    recognizeFace dist detect k store img none none =
      ({ success := false, person := some "Unknown",
         relationship := some "Unknown", confidence := some face.confidence,
         message := "Face detected but not recognized. Provide name and relationship to add new person." },
       store) :=
  recognizeFace_unmatched dist detect k store img none none face rest himg
    hdet (identifyFace_none_below dist store face.embedding hbelow) rfl

/-- C5 witness: a concrete below-threshold run leaving the store unchanged. -/
theorem C5_witness :
    recognizeFace (constDist 1) detectOne 0 oneRecordStore img0 none none =
      ({ success := false, person := some "Unknown",
         relationship := some "Unknown", confidence := some (9/10),
         message := "Face detected but not recognized. Provide name and relationship to add new person." },
       oneRecordStore) :=
  C5_unmatched (constDist 1) detectOne 0 oneRecordStore img0 probeFace []
    (by decide) rfl (by intro s hs; norm_num [constDist])

/-- C9: resolution depends only on the first detected face: two detectors
that agree on the first face but differ arbitrarily in the remaining faces
produce identical results and identical stores. -/
theorem C9_first_face (dist : List ℚ → List ℚ → ℚ) (k : Nat) (store : Store)
    (img : String) (pn pr : Option String) (face : FaceDetection)
    (rest rest2 : List FaceDetection)
    (detectA detectB : String → List FaceDetection)
    (hdet : detectA img = face :: rest) (hdet2 : detectB img = face :: rest2) :
    recognizeFace dist detectA k store img pn pr =
      recognizeFace dist detectB k store img pn pr := by
  unfold recognizeFace
  rw [hdet, hdet2]

/-- C9 witness: a one-face detector and a two-face detector sharing the same
first face give the same result. -/
theorem C9_witness :
    recognizeFace (constDist 1) detectOne 0 oneRecordStore img0 none none =
      recognizeFace (constDist 1) detectPair 0 oneRecordStore img0 none none :=
  C9_first_face (constDist 1) 0 oneRecordStore img0 none none probeFace
    [] [probeFace2] detectOne detectPair rfl rfl

/-- C10: for an empty or whitespace-only `image_data`, `recognizeFace`
returns the empty-image failure and nothing else happens: the result holds
for every detector and every distance function, and the store is returned
unchanged. -/
theorem C10_empty_image (dist : List ℚ → List ℚ → ℚ)
    (detect : String → List FaceDetection) (k : Nat) (store : Store)
    (img : String) (pn pr : Option String)
    (himg : (jsTrim img).length = 0) :
    recognizeFace dist detect k store img pn pr =
      ({ success := false, message := "No image data provided",
         error := some "Empty image data" }, store) := by
  unfold recognizeFace
  rw [if_pos himg]

/-- C10 witness: a whitespace-only payload. -/
theorem C10_witness :
    recognizeFace (constDist 1) detectOne 0 oneRecordStore imgBlank none none =
      ({ success := false, message := "No image data provided",
         error := some "Empty image data" }, oneRecordStore) :=
  C10_empty_image (constDist 1) detectOne 0 oneRecordStore imgBlank none none
    (by decide)

theorem getRandomColor_mem (k : Nat) : getRandomColor k ∈ hexColors := by
  unfold getRandomColor
  cases hg : hexColors.get? (k % hexColors.length) with
  | none =>
      exfalso
      rw [List.get?_eq_none] at hg
      have h : k % hexColors.length < hexColors.length :=
        Nat.mod_lt _ (by simp [hexColors])
      omega
  | some c => exact List.get?_mem hg

/-- C1 counterexample: a single stored record at cosine similarity exactly
0.7 to the queried descriptor (there is no other record, so no other record
is closer) satisfies the premise of the claim, similarity at least 0.7, yet
resolution does not return the identity of that record: the filter of
`match_faces`
is strict, so the call falls through to the unmatched failure response. -/
theorem C1_counterexample :
    (1 - constDist (3/10) anaRecord.face_embedding probeFace.embedding ≥ 7/10) ∧
    (searchPerson (constDist (3/10)) detectOne 0 oneRecordStore img0 none
        none).1.success = false ∧
    (searchPerson (constDist (3/10)) detectOne 0 oneRecordStore img0 none
        none).1.person = some "Unknown" := by
  have hid : identifyFace (constDist (3/10)) oneRecordStore
      probeFace.embedding = none := by
    apply identifyFace_none_below
    intro s hs
    norm_num [constDist]
  have h := recognizeFace_unmatched (constDist (3/10)) detectOne 0
    oneRecordStore img0 none none probeFace [] (by decide) rfl hid rfl
  refine ⟨by norm_num [constDist], ?_, ?_⟩ <;> simp [searchPerson, h]

/-- C1 (amended): for every descriptor whose cosine similarity to some stored
record is STRICTLY greater than 0.7 and which is strictly closer to that
record than to any other, resolution returns a successful Match carrying that
the name, relationship and color of that record, with
`is_new_person:false`, and the
store unchanged.  (The similarity bound had to be made strict: `match_faces`
filters with `>`, not `≥`; and "no other record is closer" had to become
"strictly closer than every other record" so that the top-ranked row is
determined.) -/
theorem C1_amended (dist : List ℚ → List ℚ → ℚ)
    (detect : String → List FaceDetection) (k : Nat) (store : Store)
    (img : String) (pn pr : Option String) (face : FaceDetection)
    (rest : List FaceDetection) (r : FaceRecord)
    (himg : (jsTrim img).length ≠ 0)
    (hdet : detect img = face :: rest)
    (hav : store.available = true)
    (hr : r ∈ store.records)
    (hsim : 1 - dist r.face_embedding face.embedding > 7/10)
    (hmin : ∀ s ∈ store.records, s ≠ r →
      dist r.face_embedding face.embedding <
        dist s.face_embedding face.embedding) :
    searchPerson dist detect k store img pn pr =
      ({ success := true, person := some r.name,
         relationship := some r.relationship, confidence := some (8/10),
         color := some r.color, is_new_person := false,
         message := "Found existing person: " ++ r.name ++ " (" ++
           r.relationship ++ ")" },
       store) := by
  have h := recognizeFace_match dist detect k store img pn pr face rest r
    himg hdet (identifyFace_some dist store face.embedding r hav hr hsim hmin)
  simp [searchPerson, h]

/-- C1 witness: a store with one record at similarity 1 to the probe. -/
theorem C1_witness :
    searchPerson (constDist 0) detectOne 0 oneRecordStore img0 none none =
      ({ success := true, person := some "Ana",
         relationship := some "Daughter", confidence := some (8/10),
         color := some "blue", is_new_person := false,
         message := "Found existing person: Ana (Daughter)" },
       oneRecordStore) :=
  C1_amended (constDist 0) detectOne 0 oneRecordStore img0 none none
    probeFace [] anaRecord (by decide) rfl rfl (by simp [oneRecordStore])
    (by norm_num [constDist])
    (by intro s hs hne; exact absurd (by simpa [oneRecordStore] using hs) hne)

/-- C4 counterexample: a record at cosine similarity exactly 0.7 to the query
is NOT accepted by the nearest-record query: `match_faces` returns no row and
`identifyFace` returns null. -/
theorem C4_counterexample :
    (1 - constDist (3/10) anaRecord.face_embedding probeFace.embedding
        = 7/10) ∧
    matchFaces (constDist (3/10)) oneRecordStore.records probeFace.embedding
        (7/10) 1 = [] ∧
    identifyFace (constDist (3/10)) oneRecordStore probeFace.embedding
        = none := by
  refine ⟨by norm_num [constDist], ?_, ?_⟩
  · apply matchFaces_nil
    intro s hs
    norm_num [constDist]
  · apply identifyFace_none_below
    intro s hs
    norm_num [constDist]

/-- C4 (amended): the threshold bound of the nearest-record query is
EXCLUSIVE: a record is returned by `match_faces` only when its cosine
similarity is strictly greater than the threshold, so similarity exactly
equal to 0.7 does not count as a match. -/
theorem C4_amended (dist : List ℚ → List ℚ → ℚ) (records : List FaceRecord)
    (q : List ℚ) (t : ℚ) (c : Nat) (r : FaceRecord)
    (hr : r ∈ matchFaces dist records q t c) :
    1 - dist r.face_embedding q > t := by
  unfold matchFaces at hr
  have h1 := List.mem_of_mem_take hr
  rw [mem_sortLE] at h1
  simpa using List.of_mem_filter h1

/-- C4 witness: a record strictly above the threshold is returned, and the
amended bound applies to it. -/
theorem C4_witness :
    1 - constDist 0 anaRecord.face_embedding probeFace.embedding > 7/10 :=
  C4_amended (constDist 0) oneRecordStore.records probeFace.embedding (7/10)
    1 anaRecord
    (by rw [matchFaces_head (constDist 0) oneRecordStore.records
          probeFace.embedding (7/10) anaRecord (by simp [oneRecordStore])
          (by norm_num [constDist])
          (by intro s hs hne;
              exact absurd (by simpa [oneRecordStore] using hs) hne)]
        simp)

/-- C2: for a descriptor below threshold against every stored record, with a
non-empty candidate name and relationship supplied and the store reachable,
resolution creates exactly one new Identity Record holding that name,
relationship and descriptor, colored with the random palette draw, and
returns success with `is_new_person:true` and confidence 1.0; the drawn
color always belongs to the fixed palette. -/
theorem C2_create (dist : List ℚ → List ℚ → ℚ)
    (detect : String → List FaceDetection) (k : Nat) (store : Store)
    (img : String) (face : FaceDetection) (rest : List FaceDetection)
    (n rel : String)
    (himg : (jsTrim img).length ≠ 0)
    (hdet : detect img = face :: rest)
    (hav : store.available = true)
    (hbelow : ∀ s ∈ store.records,
      ¬ (1 - dist s.face_embedding face.embedding > 7/10))
    (hn : n ≠ "") (hrel : rel ≠ "") :
    searchPerson dist detect k store img (some n) (some rel) =
      ({ success := true, person := some n, relationship := some rel,
         confidence := some 1, color := some (getRandomColor k),
         is_new_person := true,
         message := "Added new person: " ++ n ++ " (" ++ rel ++ ")" },
       { records := store.records ++
           [{ id := store.nextId, name := n, relationship := rel,
              color := getRandomColor k, face_embedding := face.embedding,
              user_id := none }],
         nextId := store.nextId + 1, available := true }) ∧
    getRandomColor k ∈ hexColors := by
  have h := recognizeFace_create dist detect k store img face rest n rel
    himg hdet hav hbelow hn hrel
  refine ⟨?_, getRandomColor_mem k⟩
  simp [searchPerson, h]

/-- C2 witness: creating "Bob"/"Friend" in the empty store. -/
theorem C2_witness :
    searchPerson (constDist 1) detectOne 3 emptyStore img0 (some "Bob")
        (some "Friend") =
      ({ success := true, person := some "Bob", relationship := some "Friend",
         confidence := some 1, color := some (getRandomColor 3),
         is_new_person := true,
         message := "Added new person: Bob (Friend)" },
       { records := [{ id := 0, name := "Bob", relationship := "Friend",
                       color := getRandomColor 3, face_embedding := [1],
                       user_id := none }],
         nextId := 1, available := true }) ∧
    getRandomColor 3 ∈ hexColors :=
  C2_create (constDist 1) detectOne 3 emptyStore img0 probeFace []
    "Bob" "Friend" (by decide) rfl rfl
    (by intro s hs; exact absurd hs (List.not_mem_nil s))
    (by decide) (by decide)

/-- C6 counterexample: with the datastore unreachable, resolution of a face
that would match when the store is reachable is reported as the ordinary
unmatched outcome — exactly the value of the genuine-no-match response — and
no distinct store-unavailability error kind exists in the result. -/
theorem C6_counterexample :
    downStore.available = false ∧
    recognizeFace (constDist 0) detectOne 0 downStore img0 none none =
      ({ success := false, person := some "Unknown",
         relationship := some "Unknown", confidence := some (9/10),
         message := "Face detected but not recognized. Provide name and relationship to add new person." },
       downStore) ∧
    (recognizeFace (constDist 0) detectOne 0 oneRecordStore img0 none
        none).1.success = true := by
  refine ⟨rfl, ?_, ?_⟩
  · exact recognizeFace_unmatched (constDist 0) detectOne 0 downStore img0
      none none probeFace [] (by decide) rfl
      (identifyFace_none_down (constDist 0) downStore probeFace.embedding rfl)
      rfl
  · have h := recognizeFace_match (constDist 0) detectOne 0 oneRecordStore
      img0 none none probeFace [] anaRecord (by decide) rfl
      (identifyFace_some (constDist 0) oneRecordStore probeFace.embedding
        anaRecord rfl (by simp [oneRecordStore]) (by norm_num [constDist])
        (by intro s hs hne
            exact absurd (by simpa [oneRecordStore] using hs) hne))
    rw [h]

/-- C6 (amended): when the datastore is unreachable, `identifyFace` swallows
the error and returns null, so resolution reports the ordinary unmatched
outcome — indistinguishable from a genuine no-match against an empty,
healthy store; no distinct StoreUnavailable error kind is surfaced. -/
theorem C6_amended (dist : List ℚ → List ℚ → ℚ)
    (detect : String → List FaceDetection) (k : Nat) (store : Store)
    (img : String) (face : FaceDetection) (rest : List FaceDetection)
    (hdown : store.available = false)
    (himg : (jsTrim img).length ≠ 0)
    (hdet : detect img = face :: rest) :
    recognizeFace dist detect k store img none none =
      ({ success := false, person := some "Unknown",
         relationship := some "Unknown", confidence := some face.confidence,
         message := "Face detected but not recognized. Provide name and relationship to add new person." },
       store) ∧
    (recognizeFace dist detect k store img none none).1 =
      (recognizeFace dist detect k
        { records := [], nextId := store.nextId, available := true }
        img none none).1 := by
  have h1 := recognizeFace_unmatched dist detect k store img none none face
    rest himg hdet (identifyFace_none_down dist store face.embedding hdown)
    rfl
  have h2 := recognizeFace_unmatched dist detect k
    { records := [], nextId := store.nextId, available := true } img none
    none face rest himg hdet
    (identifyFace_none_below dist _ face.embedding
      (by intro s hs; exact absurd hs (List.not_mem_nil s)))
    rfl
  exact ⟨h1, by rw [h1, h2]⟩

/-- C6 witness: the unreachable store with a record at similarity 1. -/
theorem C6_witness :
    recognizeFace (constDist 0) detectPair 0 downStore img0 none none =
      ({ success := false, person := some "Unknown",
         relationship := some "Unknown", confidence := some (9/10),
         message := "Face detected but not recognized. Provide name and relationship to add new person." },
       downStore) ∧
    (recognizeFace (constDist 0) detectPair 0 downStore img0 none none).1 =
      (recognizeFace (constDist 0) detectPair 0
        { records := [], nextId := downStore.nextId, available := true }
        img0 none none).1 :=
  C6_amended (constDist 0) detectPair 0 downStore img0 probeFace [probeFace2]
    rfl (by decide) rfl

/-- C7: two successive create-path calls with the same name and relationship
but different below-threshold descriptors insert two distinct records (the
`unique_name_per_user` constraint does not fire because `user_id` is null,
and nulls are distinct): creation performs no name-based deduplication. -/
theorem C7_no_dedup (dist : List ℚ → List ℚ → ℚ)
    (detectA detectB : String → List FaceDetection) (k1 k2 : Nat)
    (store : Store) (img1 img2 : String) (face1 : FaceDetection)
    (rest1 : List FaceDetection) (face2 : FaceDetection)
    (rest2 : List FaceDetection) (n rel : String)
    (himg1 : (jsTrim img1).length ≠ 0) (himg2 : (jsTrim img2).length ≠ 0)
    (hdet1 : detectA img1 = face1 :: rest1)
    (hdet2 : detectB img2 = face2 :: rest2)
    (hav : store.available = true)
    (hbelow1 : ∀ s ∈ store.records,
      ¬ (1 - dist s.face_embedding face1.embedding > 7/10))
    (hbelow2 : ∀ s ∈ store.records,
      ¬ (1 - dist s.face_embedding face2.embedding > 7/10))
    (hbelowNew : ¬ (1 - dist face1.embedding face2.embedding > 7/10))
    (hn : n ≠ "") (hrel : rel ≠ "") :
    (recognizeFace dist detectB k2
        ((recognizeFace dist detectA k1 store img1 (some n) (some rel)).2)
        img2 (some n) (some rel)).2.records =
      store.records ++
        [{ id := store.nextId, name := n, relationship := rel,
           color := getRandomColor k1, face_embedding := face1.embedding,
           user_id := none },
         { id := store.nextId + 1, name := n, relationship := rel,
           color := getRandomColor k2, face_embedding := face2.embedding,
           user_id := none }] ∧
    ({ id := store.nextId, name := n, relationship := rel,
       color := getRandomColor k1, face_embedding := face1.embedding,
       user_id := none } : FaceRecord) ≠
      { id := store.nextId + 1, name := n, relationship := rel,
        color := getRandomColor k2, face_embedding := face2.embedding,
        user_id := none } := by
  rw [recognizeFace_create dist detectA k1 store img1 face1 rest1 n rel
    himg1 hdet1 hav hbelow1 hn hrel]
  have hb2 : ∀ s ∈ store.records ++
      [({ id := store.nextId, name := n, relationship := rel,
          color := getRandomColor k1, face_embedding := face1.embedding,
          user_id := none } : FaceRecord)],
      ¬ (1 - dist s.face_embedding face2.embedding > 7/10) := by
    intro s hs
    rcases List.mem_append.mp hs with h | h
    · exact hbelow2 s h
    · rw [List.mem_singleton] at h
      subst h
      simpa using hbelowNew
  rw [recognizeFace_create dist detectB k2 _ img2 face2 rest2 n rel himg2
    hdet2 rfl hb2 hn hrel]
  constructor
  · simp
  · simp [FaceRecord.mk.injEq]

/-- C7 witness: two creates of "Bob"/"Friend" in the empty store with
different descriptors yield two distinct records. -/
theorem C7_witness :
    (recognizeFace (constDist 1) detectTwo 4
        ((recognizeFace (constDist 1) detectOne 3 emptyStore img0 (some "Bob")
            (some "Friend")).2)
        img0 (some "Bob") (some "Friend")).2.records =
      emptyStore.records ++
        [{ id := 0, name := "Bob", relationship := "Friend",
           color := getRandomColor 3, face_embedding := [1],
           user_id := none },
         { id := 1, name := "Bob", relationship := "Friend",
           color := getRandomColor 4, face_embedding := [2],
           user_id := none }] ∧
    ({ id := 0, name := "Bob", relationship := "Friend",
       color := getRandomColor 3, face_embedding := [1],
       user_id := none } : FaceRecord) ≠
      { id := 1, name := "Bob", relationship := "Friend",
        color := getRandomColor 4, face_embedding := [2],
        user_id := none } :=
  C7_no_dedup (constDist 1) detectOne detectTwo 3 4 emptyStore img0 img0
    probeFace [] probeFace2 [] "Bob" "Friend" (by decide) (by decide) rfl rfl
    rfl (by intro s hs; exact absurd hs (List.not_mem_nil s))
    (by intro s hs; exact absurd hs (List.not_mem_nil s))
    (by norm_num [constDist]) (by decide) (by decide)

/-- C8: resolving an already-matching descriptor is idempotent: the first
call returns the matched identity with the store unchanged, and a second
call on the resulting store (with any name/relationship arguments and any
random draw) returns the very same identity and the same unchanged store —
no duplicate record is ever created. -/
theorem C8_idempotent (dist : List ℚ → List ℚ → ℚ)
    (detect : String → List FaceDetection) (k k2 : Nat) (store : Store)
    (img : String) (pn pr pn2 pr2 : Option String) (face : FaceDetection)
    (rest : List FaceDetection) (p : FaceRecord)
    (himg : (jsTrim img).length ≠ 0)
    (hdet : detect img = face :: rest)
    (hid : identifyFace dist store face.embedding = some p) :
    recognizeFace dist detect k store img pn pr =
      ({ success := true, person := some p.name,
         relationship := some p.relationship, confidence := some (8/10),
         color := some p.color,
         message := "Found existing person: " ++ p.name ++ " (" ++
           p.relationship ++ ")" }, store) ∧
    recognizeFace dist detect k2
        ((recognizeFace dist detect k store img pn pr).2) img pn2 pr2 =
      ({ success := true, person := some p.name,
         relationship := some p.relationship, confidence := some (8/10),
         color := some p.color,
         message := "Found existing person: " ++ p.name ++ " (" ++
           p.relationship ++ ")" }, store) := by
  have h1 := recognizeFace_match dist detect k store img pn pr face rest p
    himg hdet hid
  refine ⟨h1, ?_⟩
  rw [h1]
  exact recognizeFace_match dist detect k2 store img pn2 pr2 face rest p
    himg hdet hid

/-- C8 witness: resolving the matching probe twice against the one-record
store returns Ana both times and never grows the store. -/
theorem C8_witness :
    recognizeFace (constDist 0) detectOne 0 oneRecordStore img0 none none =
      ({ success := true, person := some "Ana",
         relationship := some "Daughter", confidence := some (8/10),
         color := some "blue",
         message := "Found existing person: Ana (Daughter)" },
       oneRecordStore) ∧
    recognizeFace (constDist 0) detectOne 1
        ((recognizeFace (constDist 0) detectOne 0 oneRecordStore img0 none
            none).2) img0 none none =
      ({ success := true, person := some "Ana",
         relationship := some "Daughter", confidence := some (8/10),
         color := some "blue",
         message := "Found existing person: Ana (Daughter)" },
       oneRecordStore) :=
  C8_idempotent (constDist 0) detectOne 0 1 oneRecordStore img0 none none
    none none probeFace [] anaRecord (by decide) rfl
    (identifyFace_some (constDist 0) oneRecordStore probeFace.embedding
      anaRecord rfl (by simp [oneRecordStore]) (by norm_num [constDist])
      (by intro s hs hne
          exact absurd (by simpa [oneRecordStore] using hs) hne))

end HackMIT
